import Mathlib

/-!
Verification of the EchoWeaver dream session controller (src/App.tsx).

The controller holds the session state (`dreamState` with `narrative` and
`imageUrl`, the `isLoading` busy flag, the `error` message, the `apiKeyOk`
credential flag, and the `showWelcome` flag) and exposes one operation,
`handleWeaveFragment`, which calls the external narrative and image
services in sequence.  We embed one invocation of `handleWeaveFragment`
as a pure function from the pre-state, the submitted fragment, and the
outcomes of the two external calls, to the ordered list of observable
events it performs; the post-state is obtained by folding the events
over the pre-state.  The render layer (which of the three screens is
shown) is embedded as boolean functions of the state.
-/

namespace EchoWeaver

/-- `DreamState` from src/types.ts as used in App.tsx: the accumulated
narrative text and the optional data URL of the last generated image. -/
structure DreamState where
  narrative : String
  imageUrl : Option String
deriving DecidableEq, Repr

/-- The full component state of `App`: the `useState` hooks
`dreamState`, `isLoading`, `error`, `apiKeyOk`, `showWelcome`. -/
structure AppState where
  dreamState : DreamState
  isLoading : Bool
  error : Option String
  apiKeyOk : Bool
  showWelcome : Bool
deriving DecidableEq, Repr

/-- Outcome of one awaited external service call.  `ok v` is a normal
return of `v`.  `err (some m)` is a thrown `Error` whose `.message` is
`m`; `err none` is a thrown value that is not an `Error` instance, so no
message is available to the `catch` blocks. -/
inductive CallResult where
  | ok (value : String)
  | err (message : Option String)
deriving DecidableEq, Repr

/-- One observable step of `handleWeaveFragment`: a state-setter call or
an invocation of an external service.  Service invocations record the
exact arguments passed. -/
inductive Event where
  | setLoading (b : Bool)
  | setError (e : Option String)
  | callNarrative (narrative fragment : String)
  | commitNarrative (newNarrative : String)
  | setShowWelcome (b : Bool)
  | callImage (prompt : String)
  | commitImage (url : String)
deriving DecidableEq, Repr

/-- JavaScript `String.prototype.trim`: strip whitespace characters from
both ends of the string.  (Defined over the character list so that it is
fully computable; Lean's own `String.trim` agrees on ASCII input but does
not reduce in the kernel.) -/
def jsTrim (s : String) : String :=
  String.mk
    (((s.data.dropWhile Char.isWhitespace).reverse.dropWhile
        Char.isWhitespace).reverse)

/-- Fallback message in the narrative-stage `catch` (App.tsx line 68). -/
def narrativeFallbackMsg : String :=
  "Narrative weaving failed. The dream\x27s thread is lost."

/-- Fallback message in the image-stage `catch` (App.tsx line 61). -/
def imageFallbackMsg : String :=
  "Image generation failed. The dream\x27s vision flickers."

/-- The ordered event trace of one invocation of `handleWeaveFragment`
(App.tsx lines 32-72), given the pre-state `s`, the submitted
`fragment`, and the outcomes of the narrative and image service calls.

Line 33: `if (!apiKeyOk || !fragment.trim()) return;` — the empty string
is the only falsy value of `fragment.trim()`.  Then `setIsLoading(true)`,
`setError(null)`, `await weaveNarrative(dreamState.narrative, fragment)`.
On success: `newFullNarrative` and `imagePromptSegment` are chosen by the
truthiness of `dreamState.narrative` (empty string is falsy), the new
narrative is committed, `setShowWelcome(false)`, then
`await generateDreamImage(imagePromptSegment)` with its own try/catch.
On narrative failure the outer `catch` records the error.  The `finally`
block runs `setIsLoading(false)` on every path. -/
def weaveTrace (s : AppState) (fragment : String)
    (narrativeResult imageResult : CallResult) : List Event :=
  if !s.apiKeyOk || jsTrim fragment == "" then []
  else
    [Event.setLoading true, Event.setError none,
     Event.callNarrative s.dreamState.narrative fragment] ++
    (match narrativeResult with
     | CallResult.ok narrativeResponse =>
        let newFullNarrative : String :=
          if s.dreamState.narrative == "" then narrativeResponse
          else s.dreamState.narrative ++ "\n\n" ++ narrativeResponse
        let imagePromptSegment : String := narrativeResponse
        [Event.commitNarrative newFullNarrative,
         Event.setShowWelcome false,
         Event.callImage imagePromptSegment] ++
        (match imageResult with
         | CallResult.ok base64Image =>
            [Event.commitImage ("data:image/png;base64," ++ base64Image)]
         | CallResult.err msg =>
            [Event.setError (some (msg.getD imageFallbackMsg))])
     | CallResult.err msg =>
        [Event.setError (some (msg.getD narrativeFallbackMsg))]) ++
    [Event.setLoading false]

/-- Effect of one event on the component state.  Service invocations do
not themselves change the state; the setters update the matching field
(`commitNarrative` and `commitImage` are the two `setDreamState` calls). -/
def applyEvent (s : AppState) : Event → AppState
  | Event.setLoading b => { s with isLoading := b }
  | Event.setError e => { s with error := e }
  | Event.callNarrative _ _ => s
  | Event.commitNarrative n =>
      { s with dreamState := { s.dreamState with narrative := n } }
  | Event.setShowWelcome b => { s with showWelcome := b }
  | Event.callImage _ => s
  | Event.commitImage url =>
      { s with dreamState := { s.dreamState with imageUrl := some url } }

/-- Post-state of one invocation of `handleWeaveFragment`: the event
trace folded over the pre-state. -/
def runWeave (s : AppState) (fragment : String)
    (narrativeResult imageResult : CallResult) : AppState :=
  (weaveTrace s fragment narrativeResult imageResult).foldl applyEvent s

/-- Arguments of the narrative-service invocations in a trace, in order. -/
def narrativeCalls (tr : List Event) : List (String × String) :=
  tr.filterMap fun e => match e with
    | Event.callNarrative n f => some (n, f)
    | _ => none

/-- Prompts of the image-service invocations in a trace, in order. -/
def imageCalls (tr : List Event) : List String :=
  tr.filterMap fun e => match e with
    | Event.callImage p => some p
    | _ => none

/-- Number of times the trace clears the busy flag. -/
def busyReleaseCount (tr : List Event) : Nat :=
  (tr.filter fun e => match e with
    | Event.setLoading false => true
    | _ => false).length

/-- Index of the first narrative-commit event in a trace, if any. -/
def firstCommitIdx : List Event → Option Nat
  | [] => none
  | Event.commitNarrative _ :: _ => some 0
  | _ :: tr => (firstCommitIdx tr).map (· + 1)

/-- Index of the first image-service invocation in a trace, if any. -/
def firstImageCallIdx : List Event → Option Nat
  | [] => none
  | Event.callImage _ :: _ => some 0
  | _ :: tr => (firstImageCallIdx tr).map (· + 1)

/-- App.tsx line 75: the configuration-error screen is rendered iff
`!apiKeyOk && !isLoading`. -/
def showsConfigError (s : AppState) : Bool :=
  !s.apiKeyOk && !s.isLoading

/-- App.tsx line 100: within the main screen, the welcome block is
rendered iff `!isLoading && (showWelcome || !dreamState.narrative)`. -/
def showsWelcomeScreen (s : AppState) : Bool :=
  !(showsConfigError s) &&
    (!s.isLoading && (s.showWelcome || s.dreamState.narrative == ""))

/-- The welcome screen has been dismissed: it is not rendered and cannot
reappear by mere re-render — `showWelcome` is off and a narrative exists. -/
def welcomeDismissed (s : AppState) : Prop :=
  s.showWelcome = false ∧ s.dreamState.narrative ≠ ""

/-- C8: a fragment that trims to empty, or a submission while the
credential check failed (`BLOCKED`), makes `handleWeaveFragment` a silent
no-op: no event at all is performed, so the state is unchanged and
neither service is invoked. -/
theorem C8_blocked_or_blank_noop (s : AppState) (fragment : String)
    (nr ir : CallResult)
    (h : jsTrim fragment = "" ∨ s.apiKeyOk = false) :
    weaveTrace s fragment nr ir = [] ∧ runWeave s fragment nr ir = s := by
  have hg : (!s.apiKeyOk || jsTrim fragment == "") = true := by
    rcases h with h | h
    · simp [h]
    · simp [h]
  constructor
  · simp [weaveTrace, hg]
  · simp [runWeave, weaveTrace, hg]

/-- Closed witness for C8 at a concrete blocked state and a concrete
whitespace-only fragment. -/
theorem C8_blocked_or_blank_noop_witness :
    weaveTrace ⟨⟨"Once", some "u"⟩, false, none, true, false⟩ "  \t "
        (CallResult.ok "S") (CallResult.ok "I") = [] ∧
      runWeave ⟨⟨"Once", some "u"⟩, false, none, true, false⟩ "  \t "
        (CallResult.ok "S") (CallResult.ok "I") =
        ⟨⟨"Once", some "u"⟩, false, none, true, false⟩ :=
  C8_blocked_or_blank_noop _ _ _ _ (Or.inl (by decide))

/-- C10: whenever the guard passes, the narrative service is invoked
exactly once, with the current narrative and the raw fragment exactly as
submitted — trimming is used only in the guard, never on the forwarded
value. -/
theorem C10_raw_fragment_forwarded (s : AppState) (fragment : String)
    (nr ir : CallResult)
    (hk : s.apiKeyOk = true) (hf : jsTrim fragment ≠ "") :
    narrativeCalls (weaveTrace s fragment nr ir) =
      [(s.dreamState.narrative, fragment)] := by
  cases nr with
  | ok v =>
      cases ir <;>
        simp [weaveTrace, narrativeCalls, hk, hf]
  | err m =>
      cases ir <;>
        simp [weaveTrace, narrativeCalls, hk, hf]

/-- Closed witness for C10: a fragment with surrounding whitespace is
forwarded with that whitespace preserved. -/
theorem C10_raw_fragment_forwarded_witness :
    narrativeCalls (weaveTrace ⟨⟨"Once", none⟩, false, none, true, false⟩
        "  a door  " (CallResult.ok "S") (CallResult.ok "I")) =
      [("Once", "  a door  ")] :=
  C10_raw_fragment_forwarded _ _ _ _ rfl (by decide)

/-- C2: from a state with a non-empty narrative `N`, when the narrative
service succeeds with segment `S`, the new narrative is exactly
`N ++ "\n\n" ++ S`, and the image service is invoked exactly once with
prompt `S` alone (not the accumulated narrative). -/
theorem C2_append_law (s : AppState) (fragment S : String) (ir : CallResult)
    (hk : s.apiKeyOk = true) (hf : jsTrim fragment ≠ "")
    (hn : s.dreamState.narrative ≠ "") :
    (runWeave s fragment (CallResult.ok S) ir).dreamState.narrative =
        s.dreamState.narrative ++ "\n\n" ++ S ∧
      imageCalls (weaveTrace s fragment (CallResult.ok S) ir) = [S] := by
  cases ir <;>
    simp [runWeave, weaveTrace, applyEvent, imageCalls, hk, hf, hn]

/-- Closed witness for C2, re-enacting the spec scenario: narrative
`"A door opens into fog."`, segment
`"You step through and the fog swallows you."`. -/
theorem C2_append_law_witness :
    (runWeave ⟨⟨"A door opens into fog.", none⟩, false, none, true, false⟩
          "I step through." (CallResult.ok
            "You step through and the fog swallows you.")
          (CallResult.ok "I")).dreamState.narrative =
        "A door opens into fog." ++ "\n\n" ++
          "You step through and the fog swallows you." ∧
      imageCalls (weaveTrace
          ⟨⟨"A door opens into fog.", none⟩, false, none, true, false⟩
          "I step through." (CallResult.ok
            "You step through and the fog swallows you.")
          (CallResult.ok "I")) =
        ["You step through and the fog swallows you."] :=
  C2_append_law _ _ _ _ rfl (by decide) (by decide)

/-- C3: from a state with an empty narrative, when the narrative service
succeeds with segment `S`, the new narrative is exactly `S` (no leading
separator), and the image service is invoked exactly once with the same
prompt `S`. -/
theorem C3_first_fragment_law (s : AppState) (fragment S : String)
    (ir : CallResult)
    (hk : s.apiKeyOk = true) (hf : jsTrim fragment ≠ "")
    (hn : s.dreamState.narrative = "") :
    (runWeave s fragment (CallResult.ok S) ir).dreamState.narrative = S ∧
      imageCalls (weaveTrace s fragment (CallResult.ok S) ir) = [S] := by
  cases ir <;>
    simp [runWeave, weaveTrace, applyEvent, imageCalls, hk, hf, hn]

/-- Closed witness for C3, re-enacting the spec scenario: empty
narrative, segment `"A door opens into fog."`. -/
theorem C3_first_fragment_law_witness :
    (runWeave ⟨⟨"", none⟩, false, none, true, true⟩ "A door opens."
          (CallResult.ok "A door opens into fog.")
          (CallResult.ok "I")).dreamState.narrative =
        "A door opens into fog." ∧
      imageCalls (weaveTrace ⟨⟨"", none⟩, false, none, true, true⟩
          "A door opens." (CallResult.ok "A door opens into fog.")
          (CallResult.ok "I")) =
        ["A door opens into fog."] :=
  C3_first_fragment_law _ _ _ _ rfl (by decide) rfl

/-- C4: under the preconditions (credential ok, not busy, fragment trims
non-empty), a narrative-service failure leaves `dreamState` (both
`narrative` and `imageUrl`) exactly as before, never invokes the image
service, sets `lastError`, and ends with `busy = false`. -/
theorem C4_narrative_failure_noop (s : AppState) (fragment : String)
    (m : Option String) (ir : CallResult)
    (hk : s.apiKeyOk = true) (hb : s.isLoading = false)
    (hf : jsTrim fragment ≠ "") :
    (runWeave s fragment (CallResult.err m) ir).dreamState = s.dreamState ∧
      imageCalls (weaveTrace s fragment (CallResult.err m) ir) = [] ∧
      (runWeave s fragment (CallResult.err m) ir).error =
        some (m.getD narrativeFallbackMsg) ∧
      (runWeave s fragment (CallResult.err m) ir).isLoading = false := by
  cases ir <;>
    simp [runWeave, weaveTrace, applyEvent, imageCalls, hk, hf]

/-- Closed witness for C4, re-enacting the spec scenario: failure with
message `"quota exceeded"` leaves the data untouched and the image
service uninvoked. -/
theorem C4_narrative_failure_noop_witness :
    (runWeave ⟨⟨"Once", some "u"⟩, false, none, true, false⟩ "x"
          (CallResult.err (some "quota exceeded"))
          (CallResult.ok "I")).dreamState =
        (⟨"Once", some "u"⟩ : DreamState) ∧
      imageCalls (weaveTrace ⟨⟨"Once", some "u"⟩, false, none, true, false⟩
          "x" (CallResult.err (some "quota exceeded")) (CallResult.ok "I")) =
        [] ∧
      (runWeave ⟨⟨"Once", some "u"⟩, false, none, true, false⟩ "x"
          (CallResult.err (some "quota exceeded"))
          (CallResult.ok "I")).error =
        some ((some "quota exceeded").getD narrativeFallbackMsg) ∧
      (runWeave ⟨⟨"Once", some "u"⟩, false, none, true, false⟩ "x"
          (CallResult.err (some "quota exceeded"))
          (CallResult.ok "I")).isLoading = false :=
  C4_narrative_failure_noop _ _ _ _ rfl rfl (by decide)

/-- C5: under the preconditions, when the narrative service succeeds with
`S` and the image service then fails, the committed narrative update is
retained (no rollback), `imageUrl` keeps its pre-call value, `lastError`
is set, and `busy` ends at `false`. -/
theorem C5_image_failure_partial (s : AppState) (fragment S : String)
    (m : Option String)
    (hk : s.apiKeyOk = true) (hb : s.isLoading = false)
    (hf : jsTrim fragment ≠ "") :
    (runWeave s fragment (CallResult.ok S)
          (CallResult.err m)).dreamState.narrative =
        (if s.dreamState.narrative = "" then S
         else s.dreamState.narrative ++ "\n\n" ++ S) ∧
      (runWeave s fragment (CallResult.ok S)
          (CallResult.err m)).dreamState.imageUrl = s.dreamState.imageUrl ∧
      (runWeave s fragment (CallResult.ok S) (CallResult.err m)).error =
        some (m.getD imageFallbackMsg) ∧
      (runWeave s fragment (CallResult.ok S)
          (CallResult.err m)).isLoading = false := by
  by_cases hn : s.dreamState.narrative = "" <;>
    simp [runWeave, weaveTrace, applyEvent, hk, hf, hn]

/-- Closed witness for C5: image failure after a successful narrative
call keeps the appended narrative and the previous image. -/
theorem C5_image_failure_partial_witness :
    (runWeave ⟨⟨"Once", some "u"⟩, false, none, true, false⟩ "x"
          (CallResult.ok "S") (CallResult.err none)).dreamState.narrative =
        (if ("Once" : String) = "" then "S" else "Once" ++ "\n\n" ++ "S") ∧
      (runWeave ⟨⟨"Once", some "u"⟩, false, none, true, false⟩ "x"
          (CallResult.ok "S") (CallResult.err none)).dreamState.imageUrl =
        some "u" ∧
      (runWeave ⟨⟨"Once", some "u"⟩, false, none, true, false⟩ "x"
          (CallResult.ok "S") (CallResult.err none)).error =
        some (Option.getD none imageFallbackMsg) ∧
      (runWeave ⟨⟨"Once", some "u"⟩, false, none, true, false⟩ "x"
          (CallResult.ok "S") (CallResult.err none)).isLoading = false :=
  C5_image_failure_partial _ _ _ _ rfl rfl (by decide)

/-- C6: whenever the guard passes, and for every combination of
success/failure of the two calls, the operation ends with `busy = false`,
and the trace clears the busy flag exactly once. -/
theorem C6_busy_always_released (s : AppState) (fragment : String)
    (nr ir : CallResult)
    (hk : s.apiKeyOk = true) (hf : jsTrim fragment ≠ "") :
    (runWeave s fragment nr ir).isLoading = false ∧
      busyReleaseCount (weaveTrace s fragment nr ir) = 1 := by
  cases nr <;> cases ir <;>
    simp [runWeave, weaveTrace, applyEvent, busyReleaseCount, hk, hf]

/-- Closed witness for C6 at a concrete state with both calls failing. -/
theorem C6_busy_always_released_witness :
    (runWeave ⟨⟨"", none⟩, false, none, true, true⟩ "x"
          (CallResult.err none) (CallResult.err none)).isLoading = false ∧
      busyReleaseCount (weaveTrace ⟨⟨"", none⟩, false, none, true, true⟩ "x"
          (CallResult.err none) (CallResult.err none)) = 1 :=
  C6_busy_always_released _ _ _ _ rfl (by decide)

/-- C1 fails on the code: the guard on App.tsx line 33 checks only
`apiKeyOk` and the trimmed fragment, never `isLoading`.  At a concrete
state with `busy == true` (and a valid key and fragment), the invocation
is not a no-op: the narrative service is invoked, the narrative changes,
and the previously recorded error is cleared. -/
theorem C1_counterexample :
    (⟨⟨"", none⟩, true, some "old", true, true⟩ : AppState).isLoading =
        true ∧
      narrativeCalls (weaveTrace ⟨⟨"", none⟩, true, some "old", true, true⟩
        "x" (CallResult.ok "S") (CallResult.ok "I")) ≠ [] ∧
      (runWeave ⟨⟨"", none⟩, true, some "old", true, true⟩ "x"
          (CallResult.ok "S") (CallResult.ok "I")).dreamState.narrative ≠
        (⟨⟨"", none⟩, true, some "old", true, true⟩ :
          AppState).dreamState.narrative ∧
      (runWeave ⟨⟨"", none⟩, true, some "old", true, true⟩ "x"
          (CallResult.ok "S") (CallResult.ok "I")).error ≠
        (⟨⟨"", none⟩, true, some "old", true, true⟩ : AppState).error := by
  refine ⟨rfl, ?_, ?_, ?_⟩ <;> decide

/-- C1 amended: the busy flag is not consulted by `handleWeaveFragment`:
the event trace is identical whatever `isLoading` holds, and whenever
the key is ok and the fragment trims non-empty — even while
`busy == true` — the narrative service is invoked with the current
narrative and the raw fragment. -/
theorem C1_busy_not_checked (s : AppState) (b : Bool) (fragment : String)
    (nr ir : CallResult) :
    weaveTrace { s with isLoading := b } fragment nr ir =
        weaveTrace s fragment nr ir ∧
      (s.apiKeyOk = true → jsTrim fragment ≠ "" →
        narrativeCalls (weaveTrace { s with isLoading := b } fragment nr ir)
          = [(s.dreamState.narrative, fragment)]) := by
  constructor
  · simp [weaveTrace]
  · intro hk hf
    cases nr <;> cases ir <;>
      simp [weaveTrace, narrativeCalls, hk, hf]

/-- Closed witness for C1 amended: from a busy state, the narrative
service is still invoked. -/
theorem C1_busy_not_checked_witness :
    weaveTrace { (⟨⟨"Once", none⟩, false, some "old", true, true⟩ :
            AppState) with isLoading := true } "x"
          (CallResult.ok "S") (CallResult.ok "I") =
        weaveTrace ⟨⟨"Once", none⟩, false, some "old", true, true⟩ "x"
          (CallResult.ok "S") (CallResult.ok "I") ∧
      narrativeCalls (weaveTrace
          { (⟨⟨"Once", none⟩, false, some "old", true, true⟩ :
              AppState) with isLoading := true } "x"
          (CallResult.ok "S") (CallResult.ok "I")) = [("Once", "x")] :=
  ⟨(C1_busy_not_checked ⟨⟨"Once", none⟩, false, some "old", true, true⟩
      true "x" (CallResult.ok "S") (CallResult.ok "I")).1,
   (C1_busy_not_checked ⟨⟨"Once", none⟩, false, some "old", true, true⟩
      true "x" (CallResult.ok "S") (CallResult.ok "I")).2 rfl (by decide)⟩

/-- C7 fails on the code: the fallback strings in App.tsx lines 61 and 68
are longer than the phrases the claim fixes.  At concrete message-less
failures, `lastError` is not `"Narrative weaving failed."` and not
`"Image generation failed."`. -/
theorem C7_counterexample :
    (runWeave ⟨⟨"", none⟩, false, none, true, true⟩ "x"
          (CallResult.err none) (CallResult.ok "I")).error ≠
        some "Narrative weaving failed." ∧
      (runWeave ⟨⟨"Once", none⟩, false, none, true, false⟩ "x"
          (CallResult.ok "S") (CallResult.err none)).error ≠
        some "Image generation failed." := by
  constructor <;> decide

/-- C7 amended: when a failed call provides no message, `lastError` is
set to the fixed fallback phrase — exactly
`"Narrative weaving failed. The dream's thread is lost."` for a
narrative-stage failure and exactly
`"Image generation failed. The dream's vision flickers."` for an
image-stage failure. -/
theorem C7_fallback_messages (s : AppState) (fragment S : String)
    (ir : CallResult)
    (hk : s.apiKeyOk = true) (hf : jsTrim fragment ≠ "") :
    (runWeave s fragment (CallResult.err none) ir).error =
        some narrativeFallbackMsg ∧
      (runWeave s fragment (CallResult.ok S) (CallResult.err none)).error =
        some imageFallbackMsg := by
  constructor
  · cases ir <;> simp [runWeave, weaveTrace, applyEvent, hk, hf]
  · simp [runWeave, weaveTrace, applyEvent, hk, hf]

/-- Closed witness for C7 amended at a concrete ready state. -/
theorem C7_fallback_messages_witness :
    (runWeave ⟨⟨"Once", some "u"⟩, false, none, true, false⟩ "y"
          (CallResult.err none) (CallResult.ok "I")).error =
        some narrativeFallbackMsg ∧
      (runWeave ⟨⟨"Once", some "u"⟩, false, none, true, false⟩ "y"
          (CallResult.ok "S") (CallResult.err none)).error =
        some imageFallbackMsg :=
  C7_fallback_messages _ _ "S" _ rfl (by decide)

/-- A narrative extended with the blank-line separator is never empty. -/
theorem append_sep_ne_empty (a b : String) : a ++ "\n\n" ++ b ≠ "" := by
  intro h
  have h2 := congrArg String.length h
  simp [String.length_append] at h2
  exact absurd h2.1.2 (by decide)

/-- C9: (1) on a successful narrative call, the commit of the new
narrative occurs in the trace strictly before the image-service
invocation, and the run ends with the welcome flag off; (2) once the
welcome screen has been dismissed (`showWelcome` off and a narrative
present), any later invocation — with any outcome, including failures —
leaves it dismissed, and the welcome screen is not rendered. -/
theorem C9_commit_before_image_welcome_permanent :
    (∀ (s : AppState) (fragment S : String) (ir : CallResult),
        s.apiKeyOk = true → jsTrim fragment ≠ "" →
        ∃ i j, firstCommitIdx (weaveTrace s fragment (CallResult.ok S) ir)
            = some i ∧
          firstImageCallIdx (weaveTrace s fragment (CallResult.ok S) ir)
            = some j ∧
          i < j ∧
          (runWeave s fragment (CallResult.ok S) ir).showWelcome = false) ∧
      (∀ (s : AppState) (fragment : String) (nr ir : CallResult),
        welcomeDismissed s →
        welcomeDismissed (runWeave s fragment nr ir) ∧
          showsWelcomeScreen (runWeave s fragment nr ir) = false) := by
  constructor
  · intro s fragment S ir hk hf
    refine ⟨3, 5, ?_, ?_, by omega, ?_⟩ <;>
      cases ir <;>
        simp [weaveTrace, runWeave, applyEvent, firstCommitIdx,
          firstImageCallIdx, hk, hf]
  · intro s fragment nr ir h
    obtain ⟨hw, hn⟩ := h
    by_cases hk : s.apiKeyOk = true
    · by_cases hf : jsTrim fragment = ""
      · simp [runWeave, weaveTrace, welcomeDismissed, showsWelcomeScreen,
          showsConfigError, hk, hf, hw, hn]
      · cases nr with
        | ok S =>
            cases ir <;>
              simp [runWeave, weaveTrace, applyEvent, welcomeDismissed,
                showsWelcomeScreen, showsConfigError, hk, hf, hn,
                append_sep_ne_empty]
        | err m =>
            cases ir <;>
              simp [runWeave, weaveTrace, applyEvent, welcomeDismissed,
                showsWelcomeScreen, showsConfigError, hk, hf, hw, hn]
    · simp [runWeave, weaveTrace, welcomeDismissed, showsWelcomeScreen,
        showsConfigError, eq_false_of_ne_true hk, hw, hn]

/-- Closed witness for C9: a concrete first successful weave commits
before the image call and drops the welcome flag, and a concrete
dismissed state stays dismissed through a failing submission. -/
theorem C9_commit_before_image_welcome_permanent_witness :
    (∃ i j, firstCommitIdx (weaveTrace ⟨⟨"", none⟩, false, none, true, true⟩
          "x" (CallResult.ok "S") (CallResult.ok "I")) = some i ∧
        firstImageCallIdx (weaveTrace ⟨⟨"", none⟩, false, none, true, true⟩
          "x" (CallResult.ok "S") (CallResult.ok "I")) = some j ∧
        i < j ∧
        (runWeave ⟨⟨"", none⟩, false, none, true, true⟩ "x"
          (CallResult.ok "S") (CallResult.ok "I")).showWelcome = false) ∧
      (welcomeDismissed (runWeave ⟨⟨"Once", none⟩, false, none, true, false⟩
          "y" (CallResult.err none) (CallResult.ok "I")) ∧
        showsWelcomeScreen (runWeave
          ⟨⟨"Once", none⟩, false, none, true, false⟩ "y"
          (CallResult.err none) (CallResult.ok "I")) = false) :=
  ⟨C9_commit_before_image_welcome_permanent.1
      ⟨⟨"", none⟩, false, none, true, true⟩ "x" "S" (CallResult.ok "I")
      rfl (by decide),
   C9_commit_before_image_welcome_permanent.2
      ⟨⟨"Once", none⟩, false, none, true, false⟩ "y" (CallResult.err none)
      (CallResult.ok "I") ⟨rfl, by decide⟩⟩

end EchoWeaver
